import Mathlib

/-!
Verification of the payment-portal gateway (BERA TECH / PayHero).

The repository holds three near-duplicate server variants:
  * `src/server.js`, first half  (called `v1` here),
  * `src/server.js`, second half (called `v2` here),
  * `src/unnamed/part_000`       (called `part000` here).

This file shallowly embeds the pure/ledger logic of those variants:
phone normalization, amount validation, the in-memory transaction map
(a JS `Map` in v1/v2, an array in part000), the STK-push handler, the
transaction-status handlers, the statistics block and the fee endpoints.
JS numbers are modelled as `ℚ` (with `Option ℚ` where `NaN` can flow),
JS `undefined` string fields as `Option String`, and the remote PayHero
calls as an explicit outcome parameter.
-/

namespace PaymentPortal

instance instDecEqExcept {ε α : Type} [DecidableEq ε] [DecidableEq α] : DecidableEq (Except ε α) := fun x y =>
  match x, y with
  | .error e, .error f =>
    if h : e = f then .isTrue (by rw [h]) else .isFalse (by intro hh; cases hh; exact h rfl)
  | .ok a, .ok b =>
    if h : a = b then .isTrue (by rw [h]) else .isFalse (by intro hh; cases hh; exact h rfl)
  | .error _, .ok _ => .isFalse (by intro hh; cases hh)
  | .ok _, .error _ => .isFalse (by intro hh; cases hh)

/-- ASCII whitespace as matched by JS `trim` and the regex `\s` (space,
tab, LF, VT, FF, CR), identified by code point. -/
def wsChar (c : Char) : Bool :=
  c.toNat = 32 || c.toNat = 9 || c.toNat = 10 || c.toNat = 11 || c.toNat = 12 || c.toNat = 13

/-- ASCII digit, identified by code point. -/
def digitChar (c : Char) : Bool :=
  48 ≤ c.toNat && c.toNat ≤ 57

/-- `String.prototype.replace(/\s+/g, '')`: remove every whitespace char. -/
def stripWs (l : List Char) : List Char :=
  l.filter (fun c => !wsChar c)

/-- `String.prototype.trim()`: remove leading and trailing whitespace. -/
def trimWs (l : List Char) : List Char :=
  ((l.dropWhile (fun c => wsChar c)).reverse.dropWhile (fun c => wsChar c)).reverse

/-- The two validation failures thrown by `formatPhoneNumber`
(`'Phone number must start with 254'` / the length error). -/
inductive PhoneError where
  | notStart254
  | badLength
  deriving DecidableEq

/-- The branch shared by all variants: a leading `'0'` is replaced by
`"254"`, else a leading `'+'` is dropped, else the string is unchanged. -/
def phoneTransform (l : List Char) : List Char :=
  match l with
  | '0' :: rest => '2' :: '5' :: '4' :: rest
  | '+' :: rest => rest
  | _ => l

/-- The checks shared by all variants, in source order: first
`startsWith('254')`, then `length !== 12`. -/
def phoneCheck (l : List Char) : Except PhoneError (List Char) :=
  if l.take 3 = ['2', '5', '4'] then
    if l.length = 12 then .ok l else .error .badLength
  else .error .notStart254

/-- `formatPhoneNumber` of `src/server.js` (both halves), on the char list:
`phone.toString().trim().replace(/\s+/g, '')`, then the transform and checks. -/
def formatPhoneChars (l : List Char) : Except PhoneError (List Char) :=
  phoneCheck (phoneTransform (stripWs (trimWs l)))

/-- `formatPhoneNumber` of `src/unnamed/part_000`, on the char list:
only `phone.trim()` (interior whitespace is kept), then the same
transform and checks. -/
def formatPhoneChars_part000 (l : List Char) : Except PhoneError (List Char) :=
  phoneCheck (phoneTransform (trimWs l))

/-- `formatPhoneNumber` of `src/server.js` on `String`. -/
def formatPhoneNumber (s : String) : Except PhoneError String :=
  (formatPhoneChars s.data).map String.mk

/-- `formatPhoneNumber` of `src/unnamed/part_000` on `String`. -/
def formatPhoneNumber_part000 (s : String) : Except PhoneError String :=
  (formatPhoneChars_part000 s.data).map String.mk

/-- The validation failures thrown by `validateAmount`
(`'Amount must be a positive number'`, `'Minimum amount is KES 1'`,
`'Maximum amount is KES 150,000'`). -/
inductive AmountError where
  | notPositive
  | belowMin
  | aboveMax
  deriving DecidableEq

/-- `validateAmount` of `src/server.js`, first half.  The argument models
`parseFloat(amount)`: `none` is `NaN`, `some a` a finite number.  Checks in
source order: `isNaN || ≤ 0`, then `< 1`, then `> 150000`; on success the
number itself is returned (`return numAmount; // Return as number`). -/
def validateAmount : Option ℚ → Except AmountError ℚ
  | none => .error .notPositive
  | some a =>
    if a ≤ 0 then .error .notPositive
    else if a < 1 then .error .belowMin
    else if a > 150000 then .error .aboveMax
    else .ok a

/-- `Number.prototype.toFixed(2)` for the nonnegative in-range amounts the
validator can return: round to two decimals (ties away from zero) and
print with exactly two fraction digits. -/
def toFixed2 (q : ℚ) : String :=
  let n : ℤ := (q * 100 + 1 / 2).floor
  let frac : ℕ := (n % 100).toNat
  toString (n / 100) ++ "." ++ (if frac < 10 then "0" ++ toString frac else toString frac)

/-- `validateAmount` of `src/server.js`, second half: same bounds checks,
but the success value is `numAmount.toFixed(2)` — a string. -/
def validateAmount_v2 (x : Option ℚ) : Except AmountError String :=
  (validateAmount x).map toFixed2

/-- `validateAmount` of `src/unnamed/part_000`: only the
`isNaN || ≤ 0` check; no minimum or maximum bound. -/
def validateAmount_part000 : Option ℚ → Except AmountError ℚ
  | none => .error .notPositive
  | some a => if a ≤ 0 then .error .notPositive else .ok a

/-- `t.type` of a stored transaction: `'C2B'` or `'B2C'`. -/
inductive TxKind where
  | C2B
  | B2C
  deriving DecidableEq

/-- One record of the in-memory store, with the fields the claims
observe.  `status` is `Option String` because `part_000` copies
`response.data.status` into it without a default, so it can hold JS
`undefined` (`none`).  Timestamps are abstract `Nat` ticks; the opaque
`payhero_response` payload and the constant `description` field are not
modelled because no claim observes them. -/
structure Transaction where
  id : String
  kind : TxKind
  status : Option String
  amount : ℚ
  phone : String
  customerName : String
  createdAt : Nat
  lastChecked : Option Nat
  deriving DecidableEq

/-- The `transactions` store of `src/server.js`: a JS `Map` from
reference to record, modelled as an insertion-ordered association list. -/
abbrev Ledger := List (String × Transaction)

/-- `transactions.get(reference)`. -/
def ledgerGet (m : Ledger) (k : String) : Option Transaction :=
  m.lookup k

/-- `transactions.set(reference, transaction)`: replace the value in
place if the key is present, else append. -/
def ledgerSet (m : Ledger) (k : String) (v : Transaction) : Ledger :=
  match m with
  | [] => [(k, v)]
  | (k1, v1) :: rest => if k1 = k then (k, v) :: rest else (k1, v1) :: ledgerSet rest k v

/-- `transactions.delete(reference)` (the DELETE endpoint): the new map
and whether something was removed. -/
def ledgerDelete (m : Ledger) (k : String) : Ledger × Bool :=
  match m with
  | [] => ([], false)
  | (k1, v1) :: rest =>
    if k1 = k then (rest, true)
    else
      let r := ledgerDelete rest k
      ((k1, v1) :: r.1, r.2)

/-- Outcome of the remote `payheroClient.post` call, as observed by the
handler: a 2xx response, an axios error with a response status, or a
transport failure with no response. -/
inductive RemoteOutcome where
  | accepted
  | gatewayErr (status : Nat)
  | networkErr
  deriving DecidableEq

/-- The body of `POST /api/stk-push` after JSON parsing.  `none` models
an absent or falsy field (`!phone_number` / `!amount` /
`external_reference ||` treat those alike); for `amount`, the inner
`Option ℚ` is the `parseFloat` view with `none` for a non-numeric
string. -/
structure StkRequest where
  phone_number : Option String
  amount : Option (Option ℚ)
  external_reference : Option String
  customer_name : Option String

/-- The observable part of the handler's HTTP reply. -/
structure StkResult where
  httpStatus : Nat
  success : Bool
  reference : Option String
  deriving DecidableEq

/-- The `POST /api/stk-push` handler of `src/server.js`, first half
(lines 95-188): field presence check, `formatPhoneNumber`,
`validateAmount`, reference defaulting (`genRef` stands for the
generated `BERA...` value), then the PayHero call; only on a 2xx
response is the transaction stored (status `'PENDING'`), via
`transactions.set`.  On an axios error the reply status is
`error.response?.status || 500` and the store is untouched;
validation errors reply 400. -/
def stkPush (ledger : Ledger) (req : StkRequest) (genRef : String) (now : Nat)
    (remote : RemoteOutcome) : Ledger × StkResult :=
  match req.phone_number, req.amount with
  | none, _ => (ledger, ⟨400, false, none⟩)
  | some _, none => (ledger, ⟨400, false, none⟩)
  | some pn, some am =>
    match formatPhoneNumber pn with
    | .error _ => (ledger, ⟨400, false, none⟩)
    | .ok fp =>
      match validateAmount am with
      | .error _ => (ledger, ⟨400, false, none⟩)
      | .ok va =>
        let ref := req.external_reference.getD genRef
        match remote with
        | .accepted =>
          (ledgerSet ledger ref
            { id := ref, kind := .C2B, status := some "PENDING", amount := va, phone := fp,
              customerName := req.customer_name.getD "Customer", createdAt := now,
              lastChecked := none },
           ⟨200, true, some ref⟩)
        | .gatewayErr s => (ledger, ⟨s, false, none⟩)
        | .networkErr => (ledger, ⟨500, false, none⟩)

/-- Outcome of the remote `GET /payments/:reference/status` call:
a 2xx response carrying `response.data.status` (`none` when the field
is absent), an axios error with a response status, or a transport
failure. -/
inductive RemoteStatusOutcome where
  | ok (status : Option String)
  | httpErr (status : Nat)
  | networkErr
  deriving DecidableEq

/-- The observable part of a status-check reply.  `fromCache` records
whether the body was served from the local store (the
`'From local cache'` / `'Transaction found in local cache'` note). -/
structure StatusResult where
  httpStatus : Nat
  success : Bool
  status : Option String
  fromCache : Bool
  deriving DecidableEq

/-- `GET /api/transaction-status/:reference` of `src/server.js`, first
half (lines 191-261).  On a 2xx remote response the local record (if
any) is overwritten with `response.data.status || 'UNKNOWN'` and the
reply relays that status.  On ANY remote failure the handler falls back
to the local record when present (`transaction.status || 'UNKNOWN'`),
else replies `error.response?.status || 500`. -/
def transactionStatus_v1 (ledger : Ledger) (ref : String) (now : Nat)
    (remote : RemoteStatusOutcome) : Ledger × StatusResult :=
  if ref = "" then (ledger, ⟨400, false, none, false⟩)
  else
    match remote with
    | .ok st =>
      let ns := st.getD "UNKNOWN"
      let ledger1 :=
        match ledgerGet ledger ref with
        | some t => ledgerSet ledger ref { t with status := some ns, lastChecked := some now }
        | none => ledger
      (ledger1, ⟨200, true, some ns, false⟩)
    | .httpErr s =>
      match ledgerGet ledger ref with
      | some t => (ledger, ⟨200, true, some (t.status.getD "UNKNOWN"), true⟩)
      | none => (ledger, ⟨s, false, none, false⟩)
    | .networkErr =>
      match ledgerGet ledger ref with
      | some t => (ledger, ⟨200, true, some (t.status.getD "UNKNOWN"), true⟩)
      | none => (ledger, ⟨500, false, none, false⟩)

/-- `GET /api/transaction-status/:reference` of `src/server.js`, second
half (lines 734-799).  Same success path, but the cache fallback runs
only when the remote error status is exactly 404 (`transaction.status`
relayed verbatim); every other failure replies
`error.response?.status || 500`. -/
def transactionStatus_v2 (ledger : Ledger) (ref : String) (now : Nat)
    (remote : RemoteStatusOutcome) : Ledger × StatusResult :=
  if ref = "" then (ledger, ⟨400, false, none, false⟩)
  else
    match remote with
    | .ok st =>
      let ns := st.getD "UNKNOWN"
      let ledger1 :=
        match ledgerGet ledger ref with
        | some t => ledgerSet ledger ref { t with status := some ns, lastChecked := some now }
        | none => ledger
      (ledger1, ⟨200, true, some ns, false⟩)
    | .httpErr s =>
      if s = 404 then
        match ledgerGet ledger ref with
        | some t => (ledger, ⟨200, true, t.status, true⟩)
        | none => (ledger, ⟨404, false, none, false⟩)
      else (ledger, ⟨s, false, none, false⟩)
    | .networkErr => (ledger, ⟨500, false, none, false⟩)

/-- The `transactions` store of `src/unnamed/part_000`: a plain array,
newest first (`unshift`). -/
abbrev LedgerP := List Transaction

/-- `transactions.findIndex(t => t.id === reference)` followed by an
in-place update of that first match, as in `part_000`'s status handler. -/
def updateFirst (l : LedgerP) (ref : String) (f : Transaction → Transaction) : LedgerP :=
  match l with
  | [] => []
  | t :: ts => if t.id = ref then f t :: ts else t :: updateFirst ts ref f

/-- `GET /api/transaction-status/:reference` of `src/unnamed/part_000`
(lines 177-214).  On a 2xx remote response the first matching record's
`status` is set to `response.data.status` verbatim (no `|| 'UNKNOWN'`)
and the raw data is relayed; on ANY remote failure the reply is 500 —
there is no local-cache fallback and no 404. -/
def transactionStatus_part000 (ledger : LedgerP) (ref : String) (now : Nat)
    (remote : RemoteStatusOutcome) : LedgerP × StatusResult :=
  if ref = "" then (ledger, ⟨400, false, none, false⟩)
  else
    match remote with
    | .ok st =>
      (updateFirst ledger ref (fun t => { t with status := st, lastChecked := some now }),
       ⟨200, true, st, false⟩)
    | .httpErr _ => (ledger, ⟨500, false, none, false⟩)
    | .networkErr => (ledger, ⟨500, false, none, false⟩)

/-- The `statistics` block of `GET /api/transactions` in
`src/server.js` (first half lines 367-375, second half lines 905-913,
identical): counts by kind, `successful`/`failed` by exact status,
`pending` counting only `'PENDING'` and `'PROCESSING'`, and
`total_amount` as `reduce((sum, t) => sum + (t.amount || 0), 0)` over
ALL records. -/
structure Stats where
  total : Nat
  c2b : Nat
  b2c : Nat
  successful : Nat
  failed : Nat
  pending : Nat
  total_amount : ℚ
  deriving DecidableEq

def stats (ledger : Ledger) : Stats :=
  let ts := ledger.map Prod.snd
  { total := ts.length
  , c2b := (ts.filter (fun t => t.kind = TxKind.C2B)).length
  , b2c := (ts.filter (fun t => t.kind = TxKind.B2C)).length
  , successful := (ts.filter (fun t => t.status = some "SUCCESS")).length
  , failed := (ts.filter (fun t => t.status = some "FAILED")).length
  , pending := (ts.filter (fun t => t.status = some "PENDING" ∨ t.status = some "PROCESSING")).length
  , total_amount := (ts.map (fun t => t.amount)).sum }

/-- `Math.max` on the (finite) numbers that reach it. -/
def mathMax (a b : ℚ) : ℚ := if a ≤ b then b else a

/-- The `calculated` fee object of `src/server.js` (first half lines
403-412, second half lines 965-975, identical formula):
`fee = Math.max(10, amount * 0.015)`. -/
structure FeeCalc where
  amount : ℚ
  fee : ℚ
  total : ℚ
  net_receive : ℚ
  deriving DecidableEq

def feeCalc (a : ℚ) : FeeCalc :=
  let fee := mathMax 10 (a * (3 / 200))
  { amount := a, fee := fee, total := a + fee, net_receive := a - fee }

structure FeeResponse where
  httpStatus : Nat
  success : Bool
  calculated : Option FeeCalc
  deriving DecidableEq

/-- `GET /api/transaction-fees` of `src/server.js`, first half (lines
395-434): no upstream fetch at all; if the query amount is present,
numeric and positive the local estimate is returned, else
`calculated: null`; always 200 / success. -/
def transactionFees_v1 (amount : Option (Option ℚ)) : FeeResponse :=
  match amount with
  | some (some a) => if 0 < a then ⟨200, true, some (feeCalc a)⟩ else ⟨200, true, none⟩
  | _ => ⟨200, true, none⟩

/-- `GET /api/transaction-fees` of `src/server.js`, second half (lines
951-1001): first fetches the upstream fee schedule; on success the same
local estimate is computed, on failure the catch replies 200 / success
with a hard-coded default schedule and `calculated: null`. -/
def transactionFees_v2 (amount : Option (Option ℚ)) (upstreamOk : Bool) : FeeResponse :=
  if upstreamOk then
    match amount with
    | some (some a) => if 0 < a then ⟨200, true, some (feeCalc a)⟩ else ⟨200, true, none⟩
    | _ => ⟨200, true, none⟩
  else ⟨200, true, none⟩

/-- `part_000`'s `calculated` object (no `net_receive`); fields are
`Option ℚ` because its handler runs `parseFloat` without an `isNaN`
guard, so `NaN` (`none`) can propagate through `Math.max` and `+`. -/
structure FeeCalcP where
  amount : Option ℚ
  fee : Option ℚ
  total : Option ℚ
  deriving DecidableEq

structure FeeResponseP where
  httpStatus : Nat
  success : Bool
  calculated : Option FeeCalcP
  deriving DecidableEq

/-- The observable outcome of `part_000`'s fee handler: either a JSON
reply was sent, or the handler itself threw a `ReferenceError` and no
fee reply was produced at all. -/
inductive FeeOutcomeP where
  | reply (r : FeeResponseP)
  | refError
  deriving DecidableEq

/-- `GET /api/transaction-fees` of `src/unnamed/part_000` (lines
296-340): fetches the upstream schedule first; on success and a truthy
`amount` it computes `fee = Math.max(1, amountNum * 0.015)` (floor 1,
no positivity check).  When the upstream fetch fails, control reaches
the catch block, whose `calculated` object reads `amount` — but
`amount` is `const`-declared inside the `try` block (line 298) and is
not in scope in the catch (lines 333, 335), so evaluating
`parseFloat(amount)` throws a `ReferenceError` before `res.json` runs:
the handler crashes and never sends the `success: false` / fee-0 body
written in its text, modelled as `.refError`. -/
def transactionFees_part000 (amount : Option (Option ℚ)) (upstreamOk : Bool) : FeeOutcomeP :=
  if upstreamOk then
    match amount with
    | none => .reply ⟨200, true, none⟩
    | some none => .reply ⟨200, true, some ⟨none, none, none⟩⟩
    | some (some a) =>
      let fee := mathMax 1 (a * (3 / 200))
      .reply ⟨200, true, some ⟨some a, some fee, some (a + fee)⟩⟩
  else .refError

/-! ## Helper lemmas and sanity checks -/

example : formatPhoneNumber "0712345678" = .ok "254712345678" := by decide
example : formatPhoneNumber "712345678" = .error .notStart254 := by decide
example : formatPhoneNumber "0712 345 678" = .ok "254712345678" := by decide
example : formatPhoneNumber_part000 "0712 345 678" = .error .badLength := by decide
example : validateAmount (some 100) = .ok 100 := by decide
example : validateAmount_part000 (some 200000) = .ok 200000 := by decide

/-- Evaluation of the `toFixed(2)` model at the whole number 100. -/
theorem toFixed2_at_100 : toFixed2 100 = "100.00" := by
  have h1 : (100 : ℚ) * 100 + 1 / 2 = 20001 / 2 := by norm_num
  have ha : (10000 : ℤ) ≤ ((20001 : ℚ) / 2).floor := Rat.le_floor.mpr (by norm_num)
  have hb : ¬ (10001 : ℤ) ≤ ((20001 : ℚ) / 2).floor := by
    intro h
    have := Rat.le_floor.mp h
    norm_num at this
  have h2 : ((20001 : ℚ) / 2).floor = 10000 := by omega
  simp only [toFixed2, h1, h2]
  decide

example : validateAmount_v2 (some 100) = .ok "100.00" := by
  rw [show validateAmount_v2 (some 100) = .ok (toFixed2 100) from rfl, toFixed2_at_100]

/-- After `transactions.set(k, v)`, `transactions.get(k)` returns `v`. -/
theorem ledgerGet_ledgerSet (m : Ledger) (k : String) (v : Transaction) :
    ledgerGet (ledgerSet m k v) k = some v := by
  induction m with
  | nil => simp [ledgerSet, ledgerGet, List.lookup]
  | cons p rest ih =>
    obtain ⟨k1, v1⟩ := p
    by_cases h : k1 = k
    · simp [ledgerSet, h, ledgerGet, List.lookup]
    · have hne : (k == k1) = false := beq_eq_false_iff_ne.mpr (fun hh => h hh.symm)
      simp only [ledgerSet, if_neg h, ledgerGet, List.lookup, hne]
      simpa [ledgerGet] using ih

/-- A list all of whose elements fail `p` is untouched by `dropWhile p`. -/
theorem dropWhile_eq_self_of_none (p : Char → Bool) (l : List Char)
    (h : ∀ c ∈ l, p c = false) : l.dropWhile p = l := by
  cases l with
  | nil => rfl
  | cons c t => simp [List.dropWhile, h c (by simp)]

/-- A whitespace-free char list is untouched by `trim`. -/
theorem trimWs_eq_self (l : List Char) (h : ∀ c ∈ l, wsChar c = false) :
    trimWs l = l := by
  unfold trimWs
  rw [dropWhile_eq_self_of_none _ l h,
      dropWhile_eq_self_of_none _ l.reverse (by intro c hc; exact h c (by simpa using hc)),
      List.reverse_reverse]

/-- A whitespace-free char list is untouched by `replace(/\s+/g, '')`. -/
theorem stripWs_eq_self (l : List Char) (h : ∀ c ∈ l, wsChar c = false) :
    stripWs l = l := by
  unfold stripWs
  exact List.filter_eq_self.mpr (by intro c hc; simp [h c hc])

/-- Digits are not whitespace. -/
theorem wsChar_eq_false_of_digit (c : Char) (h : digitChar c = true) : wsChar c = false := by
  simp only [digitChar, Bool.and_eq_true, decide_eq_true_eq] at h
  simp only [wsChar, Bool.or_eq_false_iff, decide_eq_false_iff_not]
  omega

/-! ## Claims -/

/-- C1.  The claim states that creating a ledger entry under an already
existing reference never overwrites the original entry's amount and
phone.  The code has no duplicate check: `transactions.set(reference,
transaction)` replaces the stored record, so a second accepted STK push
with the same `external_reference` "R" and a different amount/phone
silently overwrites both.  This theorem evaluates the handler on that
failing input: after the first call the entry holds amount 100 and
phone "254712345678"; after the second it holds 999 and
"254722000111". -/
theorem c1_duplicate_create_overwrites :
    (ledgerGet (stkPush [] ⟨some "0712345678", some (some 100), some "R", none⟩
        "G1" 0 .accepted).1 "R").map Transaction.amount = some 100 ∧
    (ledgerGet (stkPush [] ⟨some "0712345678", some (some 100), some "R", none⟩
        "G1" 0 .accepted).1 "R").map Transaction.phone = some "254712345678" ∧
    (ledgerGet (stkPush (stkPush [] ⟨some "0712345678", some (some 100), some "R", none⟩
          "G1" 0 .accepted).1
        ⟨some "0722000111", some (some 999), some "R", none⟩ "G2" 1 .accepted).1 "R").map
        Transaction.amount = some 999 ∧
    (ledgerGet (stkPush (stkPush [] ⟨some "0712345678", some (some 100), some "R", none⟩
          "G1" 0 .accepted).1
        ⟨some "0722000111", some (some 999), some "R", none⟩ "G2" 1 .accepted).1 "R").map
        Transaction.phone = some "254722000111" := by
  decide

/-- C2 counterexample.  The claim states that a ledger entry is created
before the adapter call, so that after a network failure the entry is
still present with status PENDING.  On a fully valid request whose
PayHero call fails with a transport error, the handler leaves the store
empty — no entry for "R" exists at all — and replies 500. -/
theorem c2_counterexample :
    (stkPush [] ⟨some "0712345678", some (some 100), some "R", none⟩ "G" 0 .networkErr).1
        = [] ∧
    ledgerGet (stkPush [] ⟨some "0712345678", some (some 100), some "R", none⟩
        "G" 0 .networkErr).1 "R" = none ∧
    (stkPush [] ⟨some "0712345678", some (some 100), some "R", none⟩ "G" 0 .networkErr).2
        = ⟨500, false, none⟩ := by
  decide

/-- C2 amended.  The STK-push handler performs the adapter call first
and touches the ledger only on a 2xx response: (i) on any gateway or
network failure the ledger is unchanged, whatever the request (so a
failed call leaves no entry behind and there is nothing to roll back);
(ii) on a 2xx response to a request that passes validation, the entry
is inserted with status `'PENDING'` under the request's reference
(defaulted to the generated one). -/
theorem c2_amended_entry_only_after_adapter_success :
    (∀ (ledger : Ledger) (req : StkRequest) (genRef : String) (now : Nat) (s : Nat),
        (stkPush ledger req genRef now (.gatewayErr s)).1 = ledger ∧
        (stkPush ledger req genRef now .networkErr).1 = ledger) ∧
    (∀ (ledger : Ledger) (req : StkRequest) (genRef : String) (now : Nat)
        (pn : String) (am : Option ℚ) (fp : String) (va : ℚ),
        req.phone_number = some pn → req.amount = some am →
        formatPhoneNumber pn = .ok fp → validateAmount am = .ok va →
        (stkPush ledger req genRef now .accepted).1 =
          ledgerSet ledger (req.external_reference.getD genRef)
            { id := req.external_reference.getD genRef, kind := .C2B,
              status := some "PENDING", amount := va, phone := fp,
              customerName := req.customer_name.getD "Customer", createdAt := now,
              lastChecked := none } ∧
        ledgerGet (stkPush ledger req genRef now .accepted).1
            (req.external_reference.getD genRef) =
          some { id := req.external_reference.getD genRef, kind := .C2B,
                 status := some "PENDING", amount := va, phone := fp,
                 customerName := req.customer_name.getD "Customer", createdAt := now,
                 lastChecked := none }) := by
  constructor
  · intro ledger req genRef now s
    obtain ⟨pn, am, er, cn⟩ := req
    cases pn with
    | none => exact ⟨rfl, rfl⟩
    | some pn =>
      cases am with
      | none => exact ⟨rfl, rfl⟩
      | some am =>
        simp only [stkPush]
        cases formatPhoneNumber pn with
        | error e => exact ⟨rfl, rfl⟩
        | ok fp =>
          cases validateAmount am with
          | error e => exact ⟨rfl, rfl⟩
          | ok va => exact ⟨rfl, rfl⟩
  · intro ledger req genRef now pn am fp va hpn ham hfp hva
    obtain ⟨pn0, am0, er, cn⟩ := req
    simp only at hpn ham
    subst hpn ham
    simp only [stkPush, hfp, hva]
    exact ⟨by trivial, ledgerGet_ledgerSet _ _ _⟩

/-- C2 witness: the amended theorem instantiated on an empty ledger and
the concrete valid request of the counterexample. -/
theorem c2_witness :
    (stkPush [] ⟨some "0712345678", some (some 100), some "R", none⟩ "G" 7 .networkErr).1
        = [] ∧
    ledgerGet (stkPush [] ⟨some "0712345678", some (some 100), some "R", none⟩
        "G" 7 .accepted).1 "R" =
      some { id := "R", kind := .C2B, status := some "PENDING", amount := 100,
             phone := "254712345678", customerName := "Customer", createdAt := 7,
             lastChecked := none } :=
  ⟨(c2_amended_entry_only_after_adapter_success.1 []
      ⟨some "0712345678", some (some 100), some "R", none⟩ "G" 7 0).2,
   (c2_amended_entry_only_after_adapter_success.2 []
      ⟨some "0712345678", some (some 100), some "R", none⟩ "G" 7
      "0712345678" (some 100) "254712345678" 100 rfl rfl (by decide) (by decide)).2⟩

/-- C3 counterexample.  "712345678" is a 9-digit local-format number
beginning with 7; the claim says normalization succeeds on it, but the
code never prepends "254" to a bare 7/1-leading number, so
`formatPhoneNumber` throws the `must start with 254` error. -/
theorem c3_counterexample :
    "712345678".length = 9 ∧
    "712345678".data.head? = some '7' ∧
    (∀ c ∈ "712345678".data, digitChar c = true) ∧
    formatPhoneNumber "712345678" = .error PhoneError.notStart254 := by
  decide

/-- C3 amended.  (i) For a string of '0' followed by 9 digits,
normalization succeeds and yields the 12-character "254" ++ digits;
(ii) a bare 9-digit number beginning with 7 or 1 is rejected with the
`must start with 254` error rather than normalized; (iii) in general
the function strips whitespace, maps a leading '0' to "254", drops a
leading '+', and succeeds exactly when the result starts with "254"
and is 12 characters long. -/
theorem c3_amended_phone_normalization :
    (∀ (rest : List Char), rest.length = 9 → (∀ c ∈ rest, digitChar c = true) →
        formatPhoneChars ('0' :: rest) = .ok ('2' :: '5' :: '4' :: rest) ∧
        ('2' :: '5' :: '4' :: rest).length = 12) ∧
    (∀ (c : Char) (rest : List Char), (c = '7' ∨ c = '1') →
        rest.length = 8 → (∀ d ∈ rest, digitChar d = true) →
        formatPhoneChars (c :: rest) = .error PhoneError.notStart254) ∧
    (∀ (l : List Char),
        (∃ r, formatPhoneChars l = .ok r) ↔
          ((phoneTransform (stripWs (trimWs l))).take 3 = ['2', '5', '4'] ∧
           (phoneTransform (stripWs (trimWs l))).length = 12)) := by
  refine ⟨?_, ?_, ?_⟩
  · intro rest hlen hdig
    have hws : ∀ c ∈ ('0' :: rest), wsChar c = false := by
      intro c hc
      rcases List.mem_cons.mp hc with h | h
      · subst h; decide
      · exact wsChar_eq_false_of_digit c (hdig c h)
    unfold formatPhoneChars
    rw [trimWs_eq_self _ hws, stripWs_eq_self _ hws]
    have h0 : phoneTransform ('0' :: rest) = '2' :: '5' :: '4' :: rest := rfl
    rw [h0]
    constructor
    · simp [phoneCheck, hlen]
    · simp [hlen]
  · intro c rest hc hlen hdig
    have hws : ∀ d ∈ (c :: rest), wsChar d = false := by
      intro d hd
      rcases List.mem_cons.mp hd with h | h
      · subst h; rcases hc with h7 | h7 <;> subst h7 <;> decide
      · exact wsChar_eq_false_of_digit d (hdig d h)
    unfold formatPhoneChars
    rw [trimWs_eq_self _ hws, stripWs_eq_self _ hws]
    rcases hc with h7 | h7 <;> subst h7 <;>
      simp [phoneTransform, phoneCheck, List.take_succ_cons]
  · intro l
    unfold formatPhoneChars phoneCheck
    constructor
    · rintro ⟨r, hr⟩
      by_cases h1 : (phoneTransform (stripWs (trimWs l))).take 3 = ['2', '5', '4']
      · rw [if_pos h1] at hr
        by_cases h2 : (phoneTransform (stripWs (trimWs l))).length = 12
        · exact ⟨h1, h2⟩
        · rw [if_neg h2] at hr; exact Except.noConfusion hr
      · rw [if_neg h1] at hr; exact Except.noConfusion hr
    · rintro ⟨h1, h2⟩
      rw [if_pos h1, if_pos h2]
      exact ⟨_, rfl⟩

/-- C3 witness: the amended theorem instantiated at "0712345678" (the
success branch) and at "712345678" (the bare-7 rejection branch). -/
theorem c3_witness :
    formatPhoneChars ('0' :: "712345678".data) = .ok ('2' :: '5' :: '4' :: "712345678".data) ∧
    formatPhoneChars ('7' :: "12345678".data) = .error PhoneError.notStart254 :=
  ⟨(c3_amended_phone_normalization.1 "712345678".data (by decide) (by decide)).1,
   c3_amended_phone_normalization.2.1 '7' "12345678".data (Or.inl rfl) (by decide) (by decide)⟩

/-- C9 counterexample.  On "0712 345 678" (interior whitespace) the two
variants disagree: `src/server.js` strips all whitespace and succeeds
with "254712345678", while `part_000` only trims the ends, keeps the
interior spaces, and fails the length check. -/
theorem c9_counterexample :
    formatPhoneNumber "0712 345 678" = .ok "254712345678" ∧
    formatPhoneNumber_part000 "0712 345 678" = .error PhoneError.badLength := by
  decide

/-- C9 amended.  The two normalizers agree on every input containing no
whitespace character at all; they differ on interior whitespace, which
only the `src/server.js` variant removes. -/
theorem c9_amended_whitespace_free_agreement :
    ∀ (l : List Char), (∀ c ∈ l, wsChar c = false) →
      formatPhoneChars l = formatPhoneChars_part000 l := by
  intro l h
  unfold formatPhoneChars formatPhoneChars_part000
  rw [trimWs_eq_self _ h, stripWs_eq_self _ h]

/-- C9 witness: the amended theorem at the whitespace-free input
"0712345678". -/
theorem c9_witness :
    formatPhoneChars "0712345678".data = formatPhoneChars_part000 "0712345678".data :=
  c9_amended_whitespace_free_agreement "0712345678".data (by decide)

/-- C7 counterexample.  The claim states that a record in the terminal
status SUCCESS is never changed by a later status check.  The update
`transaction.status = response.data.status || 'UNKNOWN'` has no
terminal-state guard: a status check on a SUCCESS record for which the
remote now reports PENDING rewrites the stored status to PENDING. -/
theorem c7_counterexample :
    (ledgerGet (transactionStatus_v1
        [("R", ⟨"R", .C2B, some "SUCCESS", 100, "254712345678", "Customer", 0, none⟩)]
        "R" 9 (.ok (some "PENDING"))).1 "R").map Transaction.status
      = some (some "PENDING") ∧
    some (some "PENDING") ≠ some (some "SUCCESS") := by
  decide

/-- C7 amended.  A successful status check overwrites the stored status
with whatever the remote reports (defaulted to UNKNOWN), regardless of
the prior value — terminal statuses included — in both `src/server.js`
variants; a record is mutated by no other operation than status checks
and duplicate-reference creation, so one that is never polled keeps its
status. -/
theorem c7_amended_status_check_overwrites (ledger : Ledger) (ref : String) (now : Nat)
    (st : Option String) (t : Transaction) (h0 : ref ≠ "")
    (h : ledgerGet ledger ref = some t) :
    ledgerGet (transactionStatus_v1 ledger ref now (.ok st)).1 ref =
      some { t with status := some (st.getD "UNKNOWN"), lastChecked := some now } ∧
    ledgerGet (transactionStatus_v2 ledger ref now (.ok st)).1 ref =
      some { t with status := some (st.getD "UNKNOWN"), lastChecked := some now } := by
  unfold transactionStatus_v1 transactionStatus_v2
  simp only [if_neg h0, h]
  exact ⟨ledgerGet_ledgerSet _ _ _, ledgerGet_ledgerSet _ _ _⟩

/-- C7 witness: a SUCCESS record polled while the remote reports
PENDING ends up stored as PENDING. -/
theorem c7_witness :
    ledgerGet (transactionStatus_v1
        [("R", ⟨"R", .C2B, some "SUCCESS", 100, "254712345678", "Customer", 0, none⟩)]
        "R" 9 (.ok (some "PENDING"))).1 "R" =
      some ⟨"R", .C2B, some "PENDING", 100, "254712345678", "Customer", 0, some 9⟩ :=
  (c7_amended_status_check_overwrites _ "R" 9 (some "PENDING")
    ⟨"R", .C2B, some "SUCCESS", 100, "254712345678", "Customer", 0, none⟩
    (by decide) (by decide)).1

/-- C6 counterexample.  In `part_000`'s status handler every remote
failure is answered with 500: a remote 404 for a reference the local
store DOES hold is not served from the cache (the claim says 200 with
the cached record), and a reference unknown to both sides yields 500,
not 404. -/
theorem c6_counterexample :
    (transactionStatus_part000
        [⟨"R", .C2B, some "QUEUED", 100, "254712345678", "Customer", 0, none⟩]
        "R" 0 (.httpErr 404)).2 = ⟨500, false, none, false⟩ ∧
    (transactionStatus_part000 [] "X" 0 (.httpErr 404)).2 = ⟨500, false, none, false⟩ := by
  decide

/-- C6 amended.  The second `src/server.js` variant does satisfy the
claim: (i) a 2xx remote answer is authoritative and relayed; (ii) on a
remote 404 with the reference cached locally the reply is 200 from the
cache; (iii) on a remote 404 with no local record the reply is 404;
(iv) no other failure is served from the cache.  `part_000` instead
replies 500 to every remote failure. -/
theorem c6_amended_status_check_fallback (ledger : Ledger) (ref : String) (now : Nat)
    (h0 : ref ≠ "") :
    (∀ (st : Option String),
        (transactionStatus_v2 ledger ref now (.ok st)).2 =
          ⟨200, true, some (st.getD "UNKNOWN"), false⟩) ∧
    (∀ (t : Transaction), ledgerGet ledger ref = some t →
        (transactionStatus_v2 ledger ref now (.httpErr 404)).2 = ⟨200, true, t.status, true⟩) ∧
    (ledgerGet ledger ref = none →
        (transactionStatus_v2 ledger ref now (.httpErr 404)).2 = ⟨404, false, none, false⟩) ∧
    (∀ (s : Nat), s ≠ 404 →
        (transactionStatus_v2 ledger ref now (.httpErr s)).2.fromCache = false) ∧
    (transactionStatus_v2 ledger ref now .networkErr).2.fromCache = false := by
  refine ⟨?_, ?_, ?_, ?_, ?_⟩
  · intro st
    simp [transactionStatus_v2, if_neg h0]
  · intro t ht
    simp [transactionStatus_v2, if_neg h0, ht]
  · intro hn
    simp [transactionStatus_v2, if_neg h0, hn]
  · intro s hs
    simp [transactionStatus_v2, if_neg h0, hs]
  · simp [transactionStatus_v2, if_neg h0]

/-- C6 witness: the v2 cache fallback on a remote 404 for a locally
known PENDING reference. -/
theorem c6_witness :
    (transactionStatus_v2
        [("R", ⟨"R", .C2B, some "PENDING", 100, "254712345678", "Customer", 0, none⟩)]
        "R" 3 (.httpErr 404)).2 = ⟨200, true, some "PENDING", true⟩ :=
  (c6_amended_status_check_fallback _ "R" 3 (by decide)).2.1
    ⟨"R", .C2B, some "PENDING", 100, "254712345678", "Customer", 0, none⟩ (by decide)

/-- The three status buckets of the statistics block partition any list
of transactions whose statuses all lie in
{PENDING, PROCESSING, SUCCESS, FAILED}. -/
theorem status_count_partition :
    ∀ (ts : List Transaction),
      (∀ t ∈ ts, t.status = some "PENDING" ∨ t.status = some "PROCESSING" ∨
          t.status = some "SUCCESS" ∨ t.status = some "FAILED") →
      ((ts.filter (fun t => t.status = some "SUCCESS")).length +
        (ts.filter (fun t => t.status = some "FAILED")).length +
        (ts.filter (fun t =>
          t.status = some "PENDING" ∨ t.status = some "PROCESSING")).length
        = ts.length) := by
  intro ts
  induction ts with
  | nil => intro h; rfl
  | cons t ts ih =>
    intro h
    have ht := h t (List.mem_cons_self t ts)
    have ih1 := ih (fun x hx => h x (List.mem_cons_of_mem _ hx))
    rcases ht with h1 | h1 | h1 | h1 <;>
      simp [List.filter_cons, h1] at ih1 ⊢ <;> omega

/-- C5 counterexample.  The claim's count invariant fails on a
reachable snapshot: create a transaction (status PENDING), then run a
status check in which the remote 2xx response carries no `status` field
— the record becomes UNKNOWN, a non-terminal status that the `pending`
bucket (only PENDING/PROCESSING) does not count, so
successful + failed + pending = 0 ≠ 1 = total. -/
theorem c5_counterexample :
    let l1 := (stkPush [] ⟨some "0712345678", some (some 100), some "R", none⟩
        "G" 0 .accepted).1
    let l2 := (transactionStatus_v1 l1 "R" 5 (.ok none)).1
    (stats l2).successful + (stats l2).failed + (stats l2).pending ≠ (stats l2).total := by
  decide

/-- C5 amended.  The count invariant
`successful + failed + pending = total` holds at every snapshot in
which each record's status lies in {PENDING, PROCESSING, SUCCESS,
FAILED} — `pending` counts only PENDING and PROCESSING, not every
non-terminal status, so an UNKNOWN (or any provider-supplied other)
status breaks it — and `total_amount` is unconditionally the gross sum
of `amount` over all records regardless of status. -/
theorem c5_amended_stats_invariant :
    (∀ (ledger : Ledger),
        (∀ p ∈ ledger, p.2.status = some "PENDING" ∨ p.2.status = some "PROCESSING" ∨
            p.2.status = some "SUCCESS" ∨ p.2.status = some "FAILED") →
        (stats ledger).successful + (stats ledger).failed + (stats ledger).pending
          = (stats ledger).total) ∧
    (∀ (ledger : Ledger),
        (stats ledger).total_amount = ((ledger.map Prod.snd).map (fun t => t.amount)).sum) := by
  constructor
  · intro ledger h
    have hp : ∀ t ∈ ledger.map Prod.snd, t.status = some "PENDING" ∨
        t.status = some "PROCESSING" ∨ t.status = some "SUCCESS" ∨
        t.status = some "FAILED" := by
      intro t ht
      obtain ⟨p, hp, rfl⟩ := List.mem_map.mp ht
      exact h p hp
    simpa [stats] using status_count_partition (ledger.map Prod.snd) hp
  · intro ledger
    rfl

/-- C5 witness: the count invariant on a concrete two-record snapshot
with one PENDING and one SUCCESS transaction. -/
theorem c5_witness :
    (stats [("R", ⟨"R", .C2B, some "PENDING", 100, "254712345678", "Customer", 0, none⟩),
            ("S", ⟨"S", .B2C, some "SUCCESS", 50, "254700000001", "Customer", 1, none⟩)]).successful +
      (stats [("R", ⟨"R", .C2B, some "PENDING", 100, "254712345678", "Customer", 0, none⟩),
            ("S", ⟨"S", .B2C, some "SUCCESS", 50, "254700000001", "Customer", 1, none⟩)]).failed +
      (stats [("R", ⟨"R", .C2B, some "PENDING", 100, "254712345678", "Customer", 0, none⟩),
            ("S", ⟨"S", .B2C, some "SUCCESS", 50, "254700000001", "Customer", 1, none⟩)]).pending
      = (stats [("R", ⟨"R", .C2B, some "PENDING", 100, "254712345678", "Customer", 0, none⟩),
            ("S", ⟨"S", .B2C, some "SUCCESS", 50, "254700000001", "Customer", 1, none⟩)]).total :=
  c5_amended_stats_invariant.1
    [("R", ⟨"R", .C2B, some "PENDING", 100, "254712345678", "Customer", 0, none⟩),
     ("S", ⟨"S", .B2C, some "SUCCESS", 50, "254700000001", "Customer", 1, none⟩)]
    (by decide)

/-- C8 counterexample.  The claim fixes the fee floor at 10 for the fee
endpoint, but `part_000` computes `Math.max(1, amount * 0.015)`: at
amount 100 it returns fee 1.5, not max(10, 1.5) = 10. -/
theorem c8_counterexample :
    transactionFees_part000 (some (some 100)) true
        = .reply ⟨200, true, some ⟨some 100, some (3 / 2), some (203 / 2)⟩⟩ ∧
    (3 : ℚ) / 2 ≠ mathMax 10 (100 * (3 / 200)) := by
  constructor
  · norm_num [transactionFees_part000, mathMax]
  · norm_num [mathMax]

/-- C8 amended.  The first `src/server.js` variant computes
`fee = max(10, amount * 0.015)` and `total = amount + fee` for every
positive amount (amount 1000 gives fee 15 and total 1015) and performs
no upstream fetch at all, so the request cannot fail for upstream
reasons.  `part_000` uses floor 1 instead of 10, and when its upstream
fee-schedule fetch fails its catch block itself throws a
`ReferenceError` (it reads `amount` out of scope), so no fee reply —
in particular not the locally computed estimate — is ever sent. -/
theorem c8_amended_fee_formula :
    (∀ (a : ℚ), 0 < a →
        transactionFees_v1 (some (some a)) = ⟨200, true, some (feeCalc a)⟩ ∧
        (feeCalc a).fee = mathMax 10 (a * (3 / 200)) ∧
        (feeCalc a).total = a + (feeCalc a).fee) ∧
    ((feeCalc 1000).fee = 15 ∧ (feeCalc 1000).total = 1015) ∧
    (∀ (a : ℚ),
        transactionFees_part000 (some (some a)) true =
          .reply ⟨200, true, some ⟨some a, some (mathMax 1 (a * (3 / 200))),
                some (a + mathMax 1 (a * (3 / 200)))⟩⟩) ∧
    (∀ (amount : Option (Option ℚ)),
        transactionFees_part000 amount false = .refError) := by
  refine ⟨?_, ⟨?_, ?_⟩, ?_, ?_⟩
  · intro a ha
    exact ⟨by simp [transactionFees_v1, if_pos ha], rfl, rfl⟩
  · norm_num [feeCalc, mathMax]
  · norm_num [feeCalc, mathMax]
  · intro a
    simp [transactionFees_part000]
  · intro amount
    simp [transactionFees_part000]

/-- C8 witness: the amended theorem at amount 1000 — the response is
200 / success with the local estimate attached. -/
theorem c8_witness :
    transactionFees_v1 (some (some (1000 : ℚ))) = ⟨200, true, some (feeCalc 1000)⟩ :=
  (c8_amended_fee_formula.1 1000 (by decide)).1

/-- C10.  For every query amount strictly between 0 and 10 the fee
computed by both `src/server.js` fee endpoints is the floor value 10,
which exceeds the amount, so the reported
`net_receive = amount - fee` is strictly negative. -/
theorem c10_small_amount_negative_net (a : ℚ) (h0 : 0 < a) (h10 : a < 10) :
    (feeCalc a).fee = 10 ∧
    a < (feeCalc a).fee ∧
    (feeCalc a).net_receive = a - 10 ∧
    (feeCalc a).net_receive < 0 ∧
    (transactionFees_v1 (some (some a))).calculated = some (feeCalc a) ∧
    (transactionFees_v2 (some (some a)) true).calculated = some (feeCalc a) := by
  have hmul : a * (3 / 200) < 10 := by nlinarith
  have hf : mathMax 10 (a * (3 / 200)) = 10 := by
    unfold mathMax
    rw [if_neg (by linarith)]
  refine ⟨hf, ?_, ?_, ?_, ?_, ?_⟩
  · rw [show (feeCalc a).fee = mathMax 10 (a * (3 / 200)) from rfl, hf]
    exact h10
  · rw [show (feeCalc a).net_receive = a - mathMax 10 (a * (3 / 200)) from rfl, hf]
  · rw [show (feeCalc a).net_receive = a - mathMax 10 (a * (3 / 200)) from rfl, hf]
    linarith
  · simp [transactionFees_v1, if_pos h0]
  · simp [transactionFees_v2, if_pos h0]

/-- C10 witness: at amount 5 the net receive is negative and the
endpoint reports exactly the local estimate. -/
theorem c10_witness :
    (feeCalc 5).net_receive < 0 ∧
    (transactionFees_v1 (some (some (5 : ℚ)))).calculated = some (feeCalc 5) :=
  ⟨(c10_small_amount_negative_net 5 (by decide) (by decide)).2.2.2.1,
   (c10_small_amount_negative_net 5 (by decide) (by decide)).2.2.2.2.1⟩

/-- C4.  The claim's contract (bounds 1 and 150000, success returns the
amount unchanged as a number) matches only the first `src/server.js`
`validateAmount`; this theorem evaluates all three variants at the
divergence points: at 100 the second variant returns the STRING
"100.00" produced by `toFixed(2)` rather than the number; at 200000
and at 1/2 the `part_000` variant succeeds although the claim requires
an above-max / below-min failure (which the first variant correctly
raises); a `NaN` input is rejected by all. -/
theorem c4_amount_validation_divergence :
    validateAmount (some 100) = .ok 100 ∧
    validateAmount_v2 (some 100) = .ok "100.00" ∧
    validateAmount (some 200000) = .error AmountError.aboveMax ∧
    validateAmount_part000 (some 200000) = .ok 200000 ∧
    validateAmount (some (1 / 2)) = .error AmountError.belowMin ∧
    validateAmount_part000 (some (1 / 2)) = .ok (1 / 2) ∧
    validateAmount none = .error AmountError.notPositive ∧
    validateAmount_part000 none = .error AmountError.notPositive := by
  refine ⟨by decide, ?_, by decide, by decide, ?_, ?_, by decide, by decide⟩
  · rw [show validateAmount_v2 (some 100) = .ok (toFixed2 100) from rfl, toFixed2_at_100]
  · norm_num [validateAmount]
  · norm_num [validateAmount_part000]

end PaymentPortal
